import Mathlib

/-!
Shallow embedding of src/scrubAnimations.js: the ScrubEffects class that
measures a root container, keeps a registry of elements annotated with
data-effect attributes, throttles scroll events to a single callback per
animation frame, and applies parallax and slide-in transforms.

JavaScript numbers are modelled as `Option ℚ`: `some q` is a finite value
and `none` stands for a non-finite result (NaN, or the non-finite values
produced by dividing by zero).  Attribute values coming from the DOM
dataset are strings; arithmetic on them coerces through `jsToNum`,
mirroring the implicit Number coercion of the JavaScript operators.
-/

set_option autoImplicit false

namespace Scrub

/-- A JavaScript number: `none` models NaN and the other non-finite values. -/
abbrev JSNum := Option ℚ

/-- JS subtraction with NaN propagation. -/
def jsSub : JSNum → JSNum → JSNum
  | some a, some b => some (a - b)
  | _, _ => none

/-- JS addition with NaN propagation. -/
def jsAdd : JSNum → JSNum → JSNum
  | some a, some b => some (a + b)
  | _, _ => none

/-- JS multiplication with NaN propagation. -/
def jsMul : JSNum → JSNum → JSNum
  | some a, some b => some (a * b)
  | _, _ => none

/-- JS division: division by zero yields a non-finite value, modelled `none`. -/
def jsDiv : JSNum → JSNum → JSNum
  | some a, some b => if b = 0 then none else some (a / b)
  | _, _ => none

/-- JS Math.min against the constant 1; Math.min(NaN, 1) is NaN. -/
def jsMin1 : JSNum → JSNum
  | some a => some (min a 1)
  | none => none

/-- A JS value stored in a registry entry: a measured number or a dataset string. -/
inductive JSVal where
  | num (q : ℚ)
  | str (s : String)
deriving DecidableEq

/-- Accumulate a run of decimal digits; fails on a non-digit character. -/
def decDigits : List Char → ℕ → Option ℕ
  | [], acc => some acc
  | c :: cs, acc =>
      if c.isDigit then decDigits cs (acc * 10 + (c.toNat - 48)) else none

/-- Split a character list at the first dot, if any. -/
def splitAtDot : List Char → List Char × Option (List Char)
  | [] => ([], none)
  | c :: cs =>
      if c = '.' then ([], some cs)
      else
        let (a, b) := splitAtDot cs
        (c :: a, b)

/-- Unsigned decimal literal, integer part and optional fractional part. -/
def parseUnsigned (cs : List Char) : Option ℚ :=
  let (ip, fp) := splitAtDot cs
  match fp with
  | none => if ip = [] then none else (decDigits ip 0).map (fun n => (n : ℚ))
  | some f =>
      if ip = [] ∧ f = [] then none
      else
        match decDigits ip 0, decDigits f 0 with
        | some i, some m => some ((i : ℚ) + (m : ℚ) / (10 ^ f.length : ℚ))
        | _, _ => none

/-- JS Number coercion of a string: empty string is 0, plain decimal
literals with an optional sign parse, anything else is NaN (`none`).
Exponents, whitespace and hex forms are outside the modelled fragment. -/
def parseJSNumber (s : String) : JSNum :=
  match s.data with
  | [] => some 0
  | '-' :: rest => (parseUnsigned rest).map Neg.neg
  | '+' :: rest => parseUnsigned rest
  | cs => parseUnsigned cs

/-- Coerce a registry value to a number the way JS arithmetic does. -/
def jsToNum : JSVal → JSNum
  | .num q => some q
  | .str s => parseJSNumber s

/-- Coerce an optional property: a missing property (undefined) is NaN. -/
def jsPropNum : Option JSVal → JSNum
  | none => none
  | some v => jsToNum v

/-- A JS object as an association list of string keys. -/
abbrev JSObject := List (String × JSVal)

/-- Property access: first binding of the key wins (keys are unique in
the objects the code builds). -/
def getKey (o : JSObject) (k : String) : Option JSVal :=
  match o with
  | [] => none
  | p :: rest => if p.1 = k then some p.2 else getKey rest k

/-- Object spread, as in the entry construction: keys of `b` override keys
of `a`, the rest of `a` is kept. -/
def spread (a b : JSObject) : JSObject :=
  a.filter (fun p => (getKey b p.1).isNone) ++ b

/-- The geometry returned by the external measurement helper getElementRect. -/
structure Rect where
  top : ℚ
  left : ℚ
  bottom : ℚ
  right : ℚ
  width : ℚ
  height : ℚ
deriving DecidableEq

/-- The rect as the object it is spread from. -/
def Rect.toObject (r : Rect) : JSObject :=
  [("top", .num r.top), ("left", .num r.left), ("bottom", .num r.bottom),
   ("right", .num r.right), ("width", .num r.width), ("height", .num r.height)]

/-- A DOM element as the coordinator sees it: an identity, its dataset
attributes (always strings), its first element child and the geometry the
measurement helper reports for it. -/
structure Element where
  eid : ℕ
  dataset : List (String × String)
  firstElementChild : Option ℕ
  rect : Rect
deriving DecidableEq

/-- The querySelectorAll filter: the element carries a data-effect attribute. -/
def Element.hasDataEffect (e : Element) : Bool :=
  (e.dataset.map Prod.fst).contains "effect"

/-- element.dataset as a JS object of string values. -/
def datasetObject (d : List (String × String)) : JSObject :=
  d.map (fun p => (p.1, JSVal.str p.2))

/-- One registry entry: rect spread first, dataset spread last. -/
def elementEntry (e : Element) : JSObject :=
  spread e.rect.toObject (datasetObject e.dataset)

/-- getElementsWithEffects: collect every element under the root carrying a
data-effect attribute, in document order, each paired with its entry. -/
def getElementsWithEffects (rootElements : List Element) : List (Element × JSObject) :=
  (rootElements.filter Element.hasDataEffect).map (fun e => (e, elementEntry e))

/-- windowScrollAndSize: the viewport snapshot, scroll position and size. -/
structure WindowDimensions where
  x : ℚ
  y : ℚ
  width : ℚ
  height : ℚ
deriving DecidableEq

/-- The environment the coordinator measures: window readers, the elements
querySelectorAll finds under the root, and the scrollHeight of the root. -/
structure Env where
  windowWidth : ℚ
  windowHeight : ℚ
  scrollX : ℚ
  scrollY : ℚ
  rootElements : List Element
  rootScrollHeight : ℚ
deriving DecidableEq

/-- The merged getWindowSize / getWindowScroll measurement. -/
def measureWindow (env : Env) : WindowDimensions :=
  ⟨env.scrollX, env.scrollY, env.windowWidth, env.windowHeight⟩

/-- A CSS transform the code writes to an element style. -/
inductive Transform where
  | translateX (px : JSNum)
  | translateY (px : JSNum)
deriving DecidableEq

/-- Per-element style state: latest transform set on each element id. -/
abbrev Styles := List (ℕ × Transform)

/-- Write element.style.transform. -/
def setTransform (st : Styles) (eid : ℕ) (t : Transform) : Styles :=
  (eid, t) :: st

/-- Read back the transform last set on an element, if any. -/
def getTransform (st : Styles) (eid : ℕ) : Option Transform :=
  match st with
  | [] => none
  | p :: rest => if p.1 = eid then some p.2 else getTransform rest eid

/-- The runtime fault thrown when a null element is dereferenced. -/
inductive JSFault where
  | typeError (msg : String)
deriving DecidableEq

/-- Process one registry entry of applyEffects: dispatch on the effect kind.
A parallax entry dereferences the first element child; when that child is
missing the pass throws.  Unknown effect kinds and slide-in directions other
than right fall through the switch and change nothing. -/
def applyEffectToEntry (dims : WindowDimensions) (e : Element) (o : JSObject)
    (st : Styles) : Except JSFault Styles :=
  if getKey o "effect" = some (.str "parallax") then
    match e.firstElementChild with
    | none => .error (.typeError "cannot read style of null")
    | some bg =>
        let top := jsPropNum (getKey o "top")
        let speed := jsPropNum (getKey o "speed")
        let distance := jsMul (jsSub (some dims.y) top) speed
        .ok (setTransform st bg (.translateY distance))
  else if getKey o "effect" = some (.str "slide-in") then
    if getKey o "direction" = some (.str "right") then
      let top := jsPropNum (getKey o "top")
      let right := jsPropNum (getKey o "right")
      let threshold := jsPropNum (getKey o "threshold")
      let distance := jsSub (some dims.width) right
      let endPos := jsMul (some dims.height) threshold
      let current := jsSub (jsAdd (some dims.y) (some dims.height)) top
      let progress := jsMin1 (jsDiv current endPos)
      .ok (setTransform st e.eid (.translateX (jsMul distance (jsSub (some 1) progress))))
    else .ok st
  else .ok st

/-- Result of one effect pass: the styles written so far and the fault, if
the pass aborted on an entry. -/
structure EffectsResult where
  styles : Styles
  fault : Option JSFault
deriving DecidableEq

/-- applyEffects: fold the registry in insertion order; a thrown fault
aborts the rest of the pass, keeping the styles written before it. -/
def applyEffects (dims : WindowDimensions) (registry : List (Element × JSObject))
    (st : Styles) : EffectsResult :=
  match registry with
  | [] => ⟨st, none⟩
  | (e, o) :: rest =>
      match applyEffectToEntry dims e o st with
      | .error f => ⟨st, some f⟩
      | .ok st₁ => applyEffects dims rest st₁

/-- The whole mutable state of the coordinator and the document around it. -/
structure CoordState where
  registry : List (Element × JSObject)
  pending : Bool
  rafRequests : ℕ
  effectPasses : ℕ
  bodyHeight : ℚ
  rootHasScrubClass : Bool
  rootScrollTop : ℚ
  rootScrollLeft : ℚ
  styles : Styles
  fault : Option JSFault
  scrollListeners : ℕ
  resizeListeners : ℕ
deriving DecidableEq

/-- propagateScroll: mirror the measured window scroll onto the root. -/
def propagateScroll (dims : WindowDimensions) (s : CoordState) : CoordState :=
  { s with rootScrollTop := dims.y, rootScrollLeft := dims.x }

/-- initDocument: fix the body height to the root scrollHeight and mark the
root with the scrub-root class. -/
def initDocument (env : Env) (s : CoordState) : CoordState :=
  { s with bodyHeight := env.rootScrollHeight, rootHasScrubClass := true }

/-- registerNextAF: the frame debounce.  When a callback id is already held
nothing happens; otherwise one animation-frame callback is requested and
the id is kept as the pending flag. -/
def registerNextAF (s : CoordState) : CoordState :=
  if s.pending then s
  else { s with pending := true, rafRequests := s.rafRequests + 1 }

/-- init: measure the window, rebuild the registry from the current DOM,
set up the document, propagate scroll and schedule a frame. -/
def init (env : Env) (s : CoordState) : CoordState :=
  let dims := measureWindow env
  registerNextAF (propagateScroll dims
    (initDocument env { s with registry := getElementsWithEffects env.rootElements }))

/-- The callback body scheduled by registerNextAF: re-measure the window,
propagate scroll, apply effects, then release the debounce flag.  When the
effect pass throws, the release line is never reached, so the flag stays
set. -/
def runFrameCallback (env : Env) (s : CoordState) : CoordState :=
  let dims := measureWindow env
  let s₁ := propagateScroll dims s
  let r := applyEffects dims s₁.registry s₁.styles
  match r.fault with
  | some f =>
      { s₁ with styles := r.styles, fault := some f,
                effectPasses := s₁.effectPasses + 1 }
  | none =>
      { s₁ with styles := r.styles,
                effectPasses := s₁.effectPasses + 1, pending := false }

/-- Observable steps of the frame callback, used to state ordering. -/
inductive FrameEvent where
  | measured (dims : WindowDimensions)
  | propagated (dims : WindowDimensions)
  | applied (dims : WindowDimensions)
deriving DecidableEq

/-- The frame callback together with the trace of what it does, in order. -/
def runFrameCallbackTraced (env : Env) (s : CoordState) :
    CoordState × List FrameEvent :=
  let dims := measureWindow env
  let s₁ := propagateScroll dims s
  let r := applyEffects dims s₁.registry s₁.styles
  let s₂ :=
    match r.fault with
    | some f =>
        { s₁ with styles := r.styles, fault := some f,
                  effectPasses := s₁.effectPasses + 1 }
    | none =>
        { s₁ with styles := r.styles,
                  effectPasses := s₁.effectPasses + 1, pending := false }
  (s₂, [.measured dims, .propagated dims, .applied dims])

/-- A burst of n scroll events inside one frame interval. -/
def scrollBurst : ℕ → CoordState → CoordState
  | 0, s => s
  | n + 1, s => scrollBurst n (registerNextAF s)

/-- The frame boundary: the scheduled callback runs when one was requested,
otherwise the frame renders with no callback. -/
def frameTick (env : Env) (s : CoordState) : CoordState :=
  if s.pending then runFrameCallback env s else s

/-- One frame interval: n scroll events, then the frame boundary. -/
def frameInterval (env : Env) (n : ℕ) (s : CoordState) : CoordState :=
  frameTick env (scrollBurst n s)

/-- The document-ready handler from the constructor: add the scroll and
resize listeners once, then run init. -/
def onReadyHandler (env : Env) (s : CoordState) : CoordState :=
  init env { s with scrollListeners := s.scrollListeners + 1,
                    resizeListeners := s.resizeListeners + 1 }

/-- Dataset access on the raw string attributes of an element. -/
def getKeyStr (d : List (String × String)) (k : String) : Option String :=
  match d with
  | [] => none
  | p :: rest => if p.1 = k then some p.2 else getKeyStr rest k

/-! ### Helper lemmas -/

theorem getKey_datasetObject (d : List (String × String)) (k : String) :
    getKey (datasetObject d) k = (getKeyStr d k).map JSVal.str := by
  induction d with
  | nil => rfl
  | cons p rest ih =>
      by_cases h : p.1 = k <;> simp [datasetObject, getKey, getKeyStr, h] at ih ⊢
      exact ih

theorem getKey_append (a b : JSObject) (k : String) :
    getKey (a ++ b) k = ((getKey a k).rec (getKey b k) fun v => some v) := by
  induction a with
  | nil => rfl
  | cons p rest ih =>
      by_cases h : p.1 = k <;> simp [getKey, h] at ih ⊢
      exact ih

theorem getKey_spread_right (a b : JSObject) (k : String) (v : JSVal)
    (h : getKey b k = some v) : getKey (spread a b) k = some v := by
  induction a with
  | nil => simpa [spread, getKey]
  | cons p rest ih =>
      by_cases hp : (getKey b p.1).isNone
      · by_cases hk : p.1 = k
        · rw [hk] at hp
          rw [h] at hp
          simp at hp
        · simpa [spread, List.filter, hp, getKey, hk] using ih
      · simpa [spread, List.filter, hp] using ih

theorem slideInRight_eval (dims : WindowDimensions) (e : Element)
    (o : JSObject) (st : Styles) (t r th : ℚ)
    (heff : getKey o "effect" = some (.str "slide-in"))
    (hdir : getKey o "direction" = some (.str "right"))
    (ht : jsPropNum (getKey o "top") = some t)
    (hr : jsPropNum (getKey o "right") = some r)
    (hth : jsPropNum (getKey o "threshold") = some th)
    (hend : dims.height * th ≠ 0) :
    applyEffectToEntry dims e o st =
      .ok (setTransform st e.eid (.translateX (some
        ((dims.width - r) *
          (1 - min ((dims.y + dims.height - t) / (dims.height * th)) 1))))) := by
  unfold applyEffectToEntry
  rw [heff, hdir, ht, hr, hth]
  rw [if_neg (by decide), if_pos rfl, if_pos rfl]
  simp [jsSub, jsAdd, jsMul, jsDiv, jsMin1, hend]

theorem parallax_eval (dims : WindowDimensions) (e : Element)
    (o : JSObject) (st : Styles) (bg : ℕ) (t sp : ℚ)
    (heff : getKey o "effect" = some (.str "parallax"))
    (hbg : e.firstElementChild = some bg)
    (ht : jsPropNum (getKey o "top") = some t)
    (hsp : jsPropNum (getKey o "speed") = some sp) :
    applyEffectToEntry dims e o st =
      .ok (setTransform st bg (.translateY (some ((dims.y - t) * sp)))) := by
  unfold applyEffectToEntry
  rw [heff, ht, hsp]
  rw [if_pos rfl, hbg]
  simp [jsSub, jsMul]

theorem scrollBurst_of_pending (n : ℕ) (s : CoordState) (h : s.pending = true) :
    scrollBurst n s = s := by
  induction n with
  | zero => rfl
  | succ m ih => rw [scrollBurst, registerNextAF, if_pos h]; exact ih

theorem runFrameCallback_styles_eq (env : Env) (s : CoordState) :
    (runFrameCallback env s).styles =
      (applyEffects (measureWindow env) s.registry s.styles).styles := by
  unfold runFrameCallback
  simp only [propagateScroll]
  split <;> simp_all

theorem runFrameCallback_no_fault (env : Env) (s : CoordState)
    (h : (applyEffects (measureWindow env) s.registry s.styles).fault = none) :
    runFrameCallback env s =
      { s with rootScrollTop := (measureWindow env).y,
               rootScrollLeft := (measureWindow env).x,
               styles := (applyEffects (measureWindow env) s.registry s.styles).styles,
               effectPasses := s.effectPasses + 1,
               pending := false } := by
  unfold runFrameCallback
  simp only [propagateScroll]
  split
  · simp_all
  · rfl

/-! ### Claim theorems -/

/-- C2: for a registry entry with effect slide-in and direction right,
applyEffects sets the element horizontal transform to
distance * (1 - progress) pixels with distance = width - right,
end = height * threshold, current = scrollY + height - top and
progress = min (current / end) 1; on the concrete inputs of the claim the
resulting offset is 0. -/
theorem slideInRight_transform (dims : WindowDimensions) (e : Element)
    (o : JSObject) (st : Styles) (t r th : ℚ)
    (heff : getKey o "effect" = some (.str "slide-in"))
    (hdir : getKey o "direction" = some (.str "right"))
    (ht : jsPropNum (getKey o "top") = some t)
    (hr : jsPropNum (getKey o "right") = some r)
    (hth : jsPropNum (getKey o "threshold") = some th)
    (hend : dims.height * th ≠ 0) :
    applyEffectToEntry dims e o st =
      .ok (setTransform st e.eid (.translateX (some
        ((dims.width - r) *
          (1 - min ((dims.y + dims.height - t) / (dims.height * th)) 1))))) :=
  slideInRight_eval dims e o st t r th heff hdir ht hr hth hend

/-- Concrete slide-in element used in witnesses: right 800, top 300,
threshold attribute the string 0.5. -/
def sampleSlideElement : Element :=
  { eid := 7,
    dataset := [("effect", "slide-in"), ("direction", "right"), ("threshold", "0.5")],
    firstElementChild := none,
    rect := { top := 300, left := 0, bottom := 500, right := 800,
              width := 100, height := 200 } }

/-- Witness for C2 at the spec inputs: width 1000, height 600, scrollY 0,
right 800, top 300, threshold 0.5 give translateX 0. -/
theorem slideInRight_transform_witness :
    applyEffectToEntry ⟨0, 0, 1000, 600⟩ sampleSlideElement
      (elementEntry sampleSlideElement) [] =
      .ok [(7, .translateX (some 0))] := by
  have h := slideInRight_transform ⟨0, 0, 1000, 600⟩ sampleSlideElement
    (elementEntry sampleSlideElement) [] 300 800 (1/2)
    (by decide) (by decide) (by decide) (by decide)
    (by simp [sampleSlideElement, elementEntry, spread, datasetObject, Rect.toObject,
          getKey, jsPropNum, jsToNum, parseJSNumber, parseUnsigned, splitAtDot, decDigits]
        norm_num)
    (by norm_num)
  rw [h]
  simp [sampleSlideElement, setTransform]
  norm_num

/-- C3: for a parallax registry entry, applyEffects sets the vertical
transform of the first child to (scrollY - top) * speed pixels and no
horizontal component (the written transform is a translateY); speed 0
gives translateY 0 for every scroll position. -/
theorem parallax_transform (dims : WindowDimensions) (e : Element)
    (o : JSObject) (st : Styles) (bg : ℕ) (t sp : ℚ)
    (heff : getKey o "effect" = some (.str "parallax"))
    (hbg : e.firstElementChild = some bg)
    (ht : jsPropNum (getKey o "top") = some t)
    (hsp : jsPropNum (getKey o "speed") = some sp) :
    applyEffectToEntry dims e o st =
      .ok (setTransform st bg (.translateY (some ((dims.y - t) * sp)))) ∧
    (sp = 0 → applyEffectToEntry dims e o st =
      .ok (setTransform st bg (.translateY (some 0)))) := by
  refine ⟨parallax_eval dims e o st bg t sp heff hbg ht hsp, fun h0 => ?_⟩
  rw [parallax_eval dims e o st bg t sp heff hbg ht hsp, h0, mul_zero]

/-- Concrete parallax element used in witnesses: top 50, speed 0.5, first
child element 3. -/
def sampleParallaxElement : Element :=
  { eid := 2,
    dataset := [("effect", "parallax"), ("speed", "0.5")],
    firstElementChild := some 3,
    rect := { top := 50, left := 0, bottom := 450, right := 900,
              width := 900, height := 400 } }

/-- Witness for C3 at the spec inputs: scrollY 100, top 50, speed 0.5 give
translateY 25 on the first child; a speed attribute of 0 gives
translateY 0. -/
theorem parallax_transform_witness :
    applyEffectToEntry ⟨0, 100, 1000, 600⟩ sampleParallaxElement
      (elementEntry sampleParallaxElement) [] =
      .ok [(3, .translateY (some 25))] := by
  have h := (parallax_transform ⟨0, 100, 1000, 600⟩ sampleParallaxElement
    (elementEntry sampleParallaxElement) [] 3 50 (1/2)
    (by decide) (by decide) (by decide)
    (by simp [sampleParallaxElement, elementEntry, spread, datasetObject, Rect.toObject,
          getKey, jsPropNum, jsToNum, parseJSNumber, parseUnsigned, splitAtDot, decDigits]
        norm_num)).1
  rw [h]
  simp [sampleParallaxElement, setTransform]
  norm_num

/-- C7: an entry whose effect kind is neither parallax nor slide-in leaves
the styles untouched and throws nothing, and a slide-in entry whose
direction is not right does the same. -/
theorem unknown_effect_noop (dims : WindowDimensions) (e e₂ : Element)
    (o o₂ : JSObject) (st st₂ : Styles)
    (h1 : getKey o "effect" ≠ some (.str "parallax"))
    (h2 : getKey o "effect" ≠ some (.str "slide-in"))
    (hd1 : getKey o₂ "effect" = some (.str "slide-in"))
    (hd2 : getKey o₂ "direction" ≠ some (.str "right")) :
    applyEffectToEntry dims e o st = .ok st ∧
    applyEffectToEntry dims e₂ o₂ st₂ = .ok st₂ := by
  constructor
  · unfold applyEffectToEntry
    rw [if_neg h1, if_neg h2]
  · unfold applyEffectToEntry
    rw [hd1, if_neg (by decide), if_pos rfl, if_neg hd2]

/-- Witness for C7: an entry with effect kind zoom is a no-op, and a
slide-in entry with direction left is a no-op. -/
theorem unknown_effect_noop_witness :
    applyEffectToEntry ⟨0, 0, 1000, 600⟩ sampleSlideElement
      [("effect", .str "zoom")] [(9, .translateX (some 4))] =
      .ok [(9, .translateX (some 4))] ∧
    applyEffectToEntry ⟨0, 0, 1000, 600⟩ sampleParallaxElement
      [("effect", .str "slide-in"), ("direction", .str "left")] [] =
      .ok [] :=
  unknown_effect_noop ⟨0, 0, 1000, 600⟩ sampleSlideElement sampleParallaxElement
    [("effect", .str "zoom")] [("effect", .str "slide-in"), ("direction", .str "left")]
    [(9, .translateX (some 4))] []
    (by decide) (by decide) (by decide) (by decide)

/-- C9: a parallax entry on an element with no first child throws a
TypeError dereferencing the missing child, and that fault ends the effect
pass: whatever entries follow it are never processed and no style of this
entry is written. -/
theorem parallax_missing_child_faults (dims : WindowDimensions) (e : Element)
    (o : JSObject) (st : Styles) (rest : List (Element × JSObject))
    (heff : getKey o "effect" = some (.str "parallax"))
    (hbg : e.firstElementChild = none) :
    applyEffectToEntry dims e o st =
      .error (.typeError "cannot read style of null") ∧
    applyEffects dims ((e, o) :: rest) st =
      ⟨st, some (.typeError "cannot read style of null")⟩ := by
  have h : applyEffectToEntry dims e o st =
      .error (.typeError "cannot read style of null") := by
    unfold applyEffectToEntry
    rw [heff, if_pos rfl, hbg]
  exact ⟨h, by rw [applyEffects, h]⟩

/-- C5: slide-in right progress is clamped above at 1: whenever the current
scroll-frame position has reached the end position (end positive), the
written offset is 0, so scrolling past the threshold never moves the
element; there is no clamp below 0: for a negative current position the
progress is negative and, when the travel distance is positive, the
written offset exceeds that starting distance. -/
theorem slideIn_progress_clamp (dims : WindowDimensions) (e : Element)
    (o : JSObject) (st : Styles) (t r th : ℚ)
    (heff : getKey o "effect" = some (.str "slide-in"))
    (hdir : getKey o "direction" = some (.str "right"))
    (ht : jsPropNum (getKey o "top") = some t)
    (hr : jsPropNum (getKey o "right") = some r)
    (hth : jsPropNum (getKey o "threshold") = some th)
    (hend : 0 < dims.height * th) :
    (dims.height * th ≤ dims.y + dims.height - t →
      applyEffectToEntry dims e o st =
        .ok (setTransform st e.eid (.translateX (some 0)))) ∧
    (dims.y + dims.height - t < 0 →
      (dims.y + dims.height - t) / (dims.height * th) < 0 ∧
      (0 < dims.width - r →
        applyEffectToEntry dims e o st =
          .ok (setTransform st e.eid (.translateX (some
            ((dims.width - r) *
              (1 - (dims.y + dims.height - t) / (dims.height * th)))))) ∧
        dims.width - r <
          (dims.width - r) *
            (1 - (dims.y + dims.height - t) / (dims.height * th)))) := by
  have hev := slideInRight_eval dims e o st t r th heff hdir ht hr hth (ne_of_gt hend)
  constructor
  · intro hcur
    have hmin : min ((dims.y + dims.height - t) / (dims.height * th)) 1 = 1 :=
      min_eq_right ((one_le_div hend).mpr hcur)
    rw [hev, hmin]
    norm_num
  · intro hcur
    have hprog : (dims.y + dims.height - t) / (dims.height * th) < 0 :=
      div_neg_of_neg_of_pos hcur hend
    refine ⟨hprog, fun hd => ?_⟩
    have hmin : min ((dims.y + dims.height - t) / (dims.height * th)) 1 =
        (dims.y + dims.height - t) / (dims.height * th) :=
      min_eq_left (le_of_lt (lt_of_lt_of_le hprog zero_le_one))
    rw [hev, hmin]
    refine ⟨rfl, ?_⟩
    nlinarith [hprog, hd]

/-- Witness for C5: with end 300 and current 400 the offset is clamped to
0; with current negative (scrollY -900) the offset 600 exceeds the
starting distance 200. -/
theorem slideIn_progress_clamp_witness :
    applyEffectToEntry ⟨0, 100, 1000, 600⟩ sampleSlideElement
      (elementEntry sampleSlideElement) [] = .ok [(7, .translateX (some 0))] ∧
    applyEffectToEntry ⟨0, -900, 1000, 600⟩ sampleSlideElement
      (elementEntry sampleSlideElement) [] = .ok [(7, .translateX (some 600))] := by
  constructor
  · have h := (slideIn_progress_clamp ⟨0, 100, 1000, 600⟩ sampleSlideElement
      (elementEntry sampleSlideElement) [] 300 800 (1/2)
      (by decide) (by decide) (by decide) (by decide)
      (by simp [sampleSlideElement, elementEntry, spread, datasetObject, Rect.toObject,
            getKey, jsPropNum, jsToNum, parseJSNumber, parseUnsigned, splitAtDot, decDigits]
          norm_num)
      (by norm_num)).1 (by norm_num)
    simpa [sampleSlideElement, setTransform] using h
  · have h := ((slideIn_progress_clamp ⟨0, -900, 1000, 600⟩ sampleSlideElement
      (elementEntry sampleSlideElement) [] 300 800 (1/2)
      (by decide) (by decide) (by decide) (by decide)
      (by simp [sampleSlideElement, elementEntry, spread, datasetObject, Rect.toObject,
            getKey, jsPropNum, jsToNum, parseJSNumber, parseUnsigned, splitAtDot, decDigits]
          norm_num)
      (by norm_num)).2 (by norm_num)).2 (by norm_num)
    have h₁ := h.1
    rw [h₁]
    simp [sampleSlideElement, setTransform]
    norm_num

/-- C4: the frame callback first measures the window, then propagates
scroll, then applies effects, all three on the same freshly measured
snapshot of the environment at callback time; the traced callback agrees
with the callback the scheduler runs. -/
theorem frame_callback_ordering (env : Env) (s : CoordState) :
    (runFrameCallbackTraced env s).2 =
      [.measured (measureWindow env), .propagated (measureWindow env),
       .applied (measureWindow env)] ∧
    (runFrameCallbackTraced env s).1 = runFrameCallback env s := by
  constructor
  · rfl
  · unfold runFrameCallbackTraced runFrameCallback
    rfl

/-- C8: init run twice against the same environment equals init run once,
and init adds no scroll or resize listeners; those are added once by the
ready handler of the constructor. -/
theorem init_idempotent (env : Env) (s : CoordState) :
    init env (init env s) = init env s ∧
    (init env s).scrollListeners = s.scrollListeners ∧
    (init env s).resizeListeners = s.resizeListeners ∧
    (onReadyHandler env s).scrollListeners = s.scrollListeners + 1 ∧
    (onReadyHandler env s).resizeListeners = s.resizeListeners + 1 := by
  refine ⟨?_, ?_, ?_, ?_, ?_⟩ <;>
    by_cases hp : s.pending <;>
      simp [init, registerNextAF, initDocument, propagateScroll, measureWindow,
            onReadyHandler, hp]

/-- A parallax element with no first child, used in the C9 witness. -/
def childlessParallaxElement : Element :=
  { eid := 4,
    dataset := [("effect", "parallax"), ("speed", "0.5")],
    firstElementChild := none,
    rect := { top := 50, left := 0, bottom := 450, right := 900,
              width := 900, height := 400 } }

/-- Witness for C9: the childless parallax entry faults and the entry after
it in the registry is never applied. -/
theorem parallax_missing_child_faults_witness :
    applyEffects ⟨0, 100, 1000, 600⟩
      [(childlessParallaxElement, elementEntry childlessParallaxElement),
       (sampleParallaxElement, elementEntry sampleParallaxElement)] [] =
      ⟨[], some (.typeError "cannot read style of null")⟩ :=
  (parallax_missing_child_faults ⟨0, 100, 1000, 600⟩ childlessParallaxElement
    (elementEntry childlessParallaxElement) []
    [(sampleParallaxElement, elementEntry sampleParallaxElement)]
    (by decide) (by decide)).2

/-- C1: a registerNextAF call while a frame callback is pending changes
nothing; across one frame interval starting unscheduled, n scroll events
request at most one callback and run exactly one effect pass when n is
positive and none when n is zero, and the pending flag is clear again at
the end of the interval.  The effect pass is assumed fault free, since a
throwing pass skips the line that releases the flag. -/
theorem registerNextAF_coalesces (env : Env) (s u : CoordState) (n : ℕ)
    (hs : s.pending = false) (hu : u.pending = true)
    (hff : (applyEffects (measureWindow env) s.registry s.styles).fault = none) :
    registerNextAF u = u ∧
    (frameInterval env n s).effectPasses =
      s.effectPasses + (if n = 0 then 0 else 1) ∧
    (frameInterval env n s).rafRequests =
      s.rafRequests + (if n = 0 then 0 else 1) ∧
    (frameInterval env n s).pending = false := by
  refine ⟨by rw [registerNextAF, if_pos hu], ?_⟩
  cases n with
  | zero =>
      simp [frameInterval, scrollBurst, frameTick, hs]
  | succ m =>
      have hb : scrollBurst (m + 1) s =
          { s with pending := true, rafRequests := s.rafRequests + 1 } := by
        rw [scrollBurst, registerNextAF, if_neg (by simp [hs])]
        exact scrollBurst_of_pending m _ rfl
      have hrun := runFrameCallback_no_fault env
        { s with pending := true, rafRequests := s.rafRequests + 1 } (by simpa using hff)
      simp only [frameInterval, hb, frameTick, if_pos, hrun]
      simp

/-- Witness for C1: from an idle state with an empty registry, a burst of
three scroll events requests one callback and yields one effect pass. -/
theorem registerNextAF_coalesces_witness :
    registerNextAF
        { registry := [], pending := true, rafRequests := 1, effectPasses := 0,
          bodyHeight := 0, rootHasScrubClass := false, rootScrollTop := 0,
          rootScrollLeft := 0, styles := [], fault := none,
          scrollListeners := 1, resizeListeners := 1 } =
      { registry := [], pending := true, rafRequests := 1, effectPasses := 0,
        bodyHeight := 0, rootHasScrubClass := false, rootScrollTop := 0,
        rootScrollLeft := 0, styles := [], fault := none,
        scrollListeners := 1, resizeListeners := 1 } ∧
    (frameInterval ⟨1000, 600, 0, 100, [], 2000⟩ 3
        { registry := [], pending := false, rafRequests := 0, effectPasses := 0,
          bodyHeight := 0, rootHasScrubClass := false, rootScrollTop := 0,
          rootScrollLeft := 0, styles := [], fault := none,
          scrollListeners := 1, resizeListeners := 1 }).effectPasses =
      0 + (if 3 = 0 then 0 else 1) ∧
    (frameInterval ⟨1000, 600, 0, 100, [], 2000⟩ 3
        { registry := [], pending := false, rafRequests := 0, effectPasses := 0,
          bodyHeight := 0, rootHasScrubClass := false, rootScrollTop := 0,
          rootScrollLeft := 0, styles := [], fault := none,
          scrollListeners := 1, resizeListeners := 1 }).rafRequests =
      0 + (if 3 = 0 then 0 else 1) ∧
    (frameInterval ⟨1000, 600, 0, 100, [], 2000⟩ 3
        { registry := [], pending := false, rafRequests := 0, effectPasses := 0,
          bodyHeight := 0, rootHasScrubClass := false, rootScrollTop := 0,
          rootScrollLeft := 0, styles := [], fault := none,
          scrollListeners := 1, resizeListeners := 1 }).pending = false := by
  have h := registerNextAF_coalesces ⟨1000, 600, 0, 100, [], 2000⟩
    { registry := [], pending := false, rafRequests := 0, effectPasses := 0,
      bodyHeight := 0, rootHasScrubClass := false, rootScrollTop := 0,
      rootScrollLeft := 0, styles := [], fault := none,
      scrollListeners := 1, resizeListeners := 1 }
    { registry := [], pending := true, rafRequests := 1, effectPasses := 0,
      bodyHeight := 0, rootHasScrubClass := false, rootScrollTop := 0,
      rootScrollLeft := 0, styles := [], fault := none,
      scrollListeners := 1, resizeListeners := 1 }
    3 rfl rfl rfl
  exact h

/-- An element with no data-effect attribute: skipped by the registry scan. -/
def plainElement : Element :=
  { eid := 8, dataset := [("role", "container")], firstElementChild := none,
    rect := { top := 0, left := 0, bottom := 100, right := 100,
              width := 100, height := 100 } }

/-- An element that was removed from the root before a rescan. -/
def removedElement : Element :=
  { eid := 11, dataset := [("effect", "parallax"), ("speed", "1")],
    firstElementChild := some 12,
    rect := { top := 10, left := 0, bottom := 110, right := 500,
              width := 500, height := 100 } }

/-- The empty coordinator state before the ready handler runs. -/
def emptyState : CoordState :=
  { registry := [], pending := false, rafRequests := 0, effectPasses := 0,
    bodyHeight := 0, rootHasScrubClass := false, rootScrollTop := 0,
    rootScrollLeft := 0, styles := [], fault := none,
    scrollListeners := 0, resizeListeners := 0 }

/-- C6: init rebuilds the registry wholesale from the elements carrying a
data-effect attribute under the root at that moment: the result does not
depend on the previous registry, an element no longer under the root has
no entry, there is exactly one entry per qualifying element in document
order (keys distinct when the scanned elements are), and the next frame
callback applies effects over exactly that rebuilt registry. -/
theorem init_rebuilds_registry (env env₂ : Env) (s s' : CoordState)
    (e : Element) (o : JSObject)
    (hnodup : env.rootElements.Nodup)
    (he : e ∉ env.rootElements) :
    (init env s).registry = getElementsWithEffects env.rootElements ∧
    (init env s).registry = (init env s').registry ∧
    (e, o) ∉ (init env s).registry ∧
    (init env s).registry.map Prod.fst =
      env.rootElements.filter Element.hasDataEffect ∧
    ((init env s).registry.map Prod.fst).Nodup ∧
    (runFrameCallback env₂ (init env s)).styles =
      (applyEffects (measureWindow env₂)
        (getElementsWithEffects env.rootElements) s.styles).styles := by
  have hreg : ∀ u : CoordState, (init env u).registry =
      getElementsWithEffects env.rootElements := by
    intro u
    by_cases hp : u.pending <;>
      simp [init, registerNextAF, initDocument, propagateScroll, hp]
  have hsty : (init env s).styles = s.styles := by
    by_cases hp : s.pending <;>
      simp [init, registerNextAF, initDocument, propagateScroll, hp]
  refine ⟨hreg s, (hreg s).trans (hreg s').symm, ?_, ?_, ?_, ?_⟩
  · rw [hreg s]
    intro hmem
    simp only [getElementsWithEffects, List.mem_map, List.mem_filter] at hmem
    obtain ⟨a, ⟨ha, _⟩, haeq⟩ := hmem
    exact he (by rw [← (Prod.mk.injEq _ _ _ _).mp haeq |>.1]; exact ha)
  · rw [hreg s]
    simp only [getElementsWithEffects, List.map_map]
    have hcomp : (Prod.fst ∘ fun a : Element => (a, elementEntry a)) = id := rfl
    rw [hcomp, List.map_id]
  · rw [hreg s]
    simp only [getElementsWithEffects, List.map_map]
    have hcomp : (Prod.fst ∘ fun a : Element => (a, elementEntry a)) = id := rfl
    rw [hcomp, List.map_id]
    exact hnodup.filter _
  · rw [runFrameCallback_styles_eq, hreg s, hsty]

/-- Witness for C6: with a root holding one parallax element and one plain
element, init from two different starting states builds the same one-entry
registry, and the removed element is absent from it. -/
theorem init_rebuilds_registry_witness :
    (init ⟨1000, 600, 0, 0, [sampleParallaxElement, plainElement], 2000⟩
        emptyState).registry =
      getElementsWithEffects [sampleParallaxElement, plainElement] ∧
    (init ⟨1000, 600, 0, 0, [sampleParallaxElement, plainElement], 2000⟩
        emptyState).registry =
      (init ⟨1000, 600, 0, 0, [sampleParallaxElement, plainElement], 2000⟩
        { emptyState with registry := [(removedElement, elementEntry removedElement)],
                          pending := true }).registry ∧
    (removedElement, elementEntry removedElement) ∉
      (init ⟨1000, 600, 0, 0, [sampleParallaxElement, plainElement], 2000⟩
        emptyState).registry ∧
    (init ⟨1000, 600, 0, 0, [sampleParallaxElement, plainElement], 2000⟩
        emptyState).registry.map Prod.fst =
      [sampleParallaxElement, plainElement].filter Element.hasDataEffect ∧
    ((init ⟨1000, 600, 0, 0, [sampleParallaxElement, plainElement], 2000⟩
        emptyState).registry.map Prod.fst).Nodup ∧
    (runFrameCallback ⟨1000, 600, 0, 100, [], 0⟩
        (init ⟨1000, 600, 0, 0, [sampleParallaxElement, plainElement], 2000⟩
          emptyState)).styles =
      (applyEffects (measureWindow ⟨1000, 600, 0, 100, [], 0⟩)
        (getElementsWithEffects [sampleParallaxElement, plainElement])
        emptyState.styles).styles :=
  init_rebuilds_registry
    ⟨1000, 600, 0, 0, [sampleParallaxElement, plainElement], 2000⟩
    ⟨1000, 600, 0, 100, [], 0⟩ emptyState
    { emptyState with registry := [(removedElement, elementEntry removedElement)],
                      pending := true }
    removedElement (elementEntry removedElement)
    (by decide) (by decide)

/-- A parallax element whose data-top attribute collides with the measured
top of its rect. -/
def overriddenElement : Element :=
  { eid := 5, dataset := [("effect", "parallax"), ("top", "12"), ("speed", "1")],
    firstElementChild := some 6,
    rect := { top := 40, left := 0, bottom := 240, right := 700,
              width := 700, height := 200 } }

/-- C10: the registry entry spreads the dataset after the measured rect, so
an attribute whose key collides with a geometry field replaces the measured
number with the raw attribute string, and that string is coerced to a
number only by the arithmetic inside applyEffects. -/
theorem dataset_overrides_rect (dims : WindowDimensions) (st : Styles)
    (e : Element) (bg : ℕ) (sv : String)
    (h1 : getKeyStr e.dataset "top" = some sv)
    (hbg : e.firstElementChild = some bg)
    (heff : getKey (elementEntry e) "effect" = some (.str "parallax")) :
    getKey (elementEntry e) "top" = some (.str sv) ∧
    applyEffectToEntry dims e (elementEntry e) st =
      .ok (setTransform st bg (.translateY
        (jsMul (jsSub (some dims.y) (parseJSNumber sv))
          (jsPropNum (getKey (elementEntry e) "speed"))))) := by
  have ha : getKey (elementEntry e) "top" = some (.str sv) := by
    apply getKey_spread_right
    rw [getKey_datasetObject, h1]
    rfl
  refine ⟨ha, ?_⟩
  unfold applyEffectToEntry
  rw [heff, if_pos rfl, hbg, ha]
  rfl

/-- Witness for C10: the element with data-top 12 has the string 12 as its
entry top, overriding the measured 40, and the parallax arithmetic coerces
it: scrollY 100 with speed 1 gives translateY 88. -/
theorem dataset_overrides_rect_witness :
    getKey (elementEntry overriddenElement) "top" = some (.str "12") ∧
    applyEffectToEntry ⟨0, 100, 800, 600⟩ overriddenElement
      (elementEntry overriddenElement) [] =
      .ok [(6, .translateY (some 88))] := by
  have h := dataset_overrides_rect ⟨0, 100, 800, 600⟩ [] overriddenElement 6 "12"
    (by decide) (by decide) (by decide)
  refine ⟨h.1, ?_⟩
  rw [h.2]
  simp [overriddenElement, elementEntry, spread, datasetObject, Rect.toObject,
        getKey, jsPropNum, jsToNum, parseJSNumber, parseUnsigned, splitAtDot,
        decDigits, jsMul, jsSub, setTransform]
  norm_num

end Scrub
